import Mathlib

/-!
Shallow embedding of `src/src/lib.rs` of the `droidwgpu` repository:
a wgpu surface-lifecycle state machine (`WgpuStage`, `InnerContext`) with
the operations `setup`, `clean_surface`, `draw` and the `Resized` handler
of `run` (called `resize` here).

GPU resources returned by the capability provider (surfaces, adapters,
devices, queues, shader modules, pipelines, swap chains) are modelled by
identities (`ResId`) allocated from a monotone fresh counter, so that
"created once, never recreated" becomes equality of identities.  `draw`
emits an explicit trace of the graphics-API calls it makes; the `.expect`
panics of the source become `Option.none` results.
-/

namespace Droidwgpu

/-- `wgpu::TextureFormat` (only the constructors the program touches). -/
inductive TextureFormat
  | Rgba8Unorm
  | Bgra8Unorm
  deriving DecidableEq, Repr

/-- `wgpu::PresentMode`. -/
inductive PresentMode
  | Mailbox
  | Fifo
  deriving DecidableEq, Repr

/-- `wgpu::TextureUsage` as used by the program. -/
inductive TextureUsage
  | OUTPUT_ATTACHMENT
  deriving DecidableEq, Repr

/-- Named `wgpu::Color` constants (the program only ever uses `GREEN`). -/
inductive Color
  | GREEN
  | BLACK
  deriving DecidableEq, Repr

/-- Identity of a GPU resource handed out by the capability provider. -/
abbrev ResId := Nat

/-- `wgpu::SwapChainDescriptor`. -/
structure SwapChainDescriptor where
  usage : TextureUsage
  format : TextureFormat
  width : Nat
  height : Nat
  present_mode : PresentMode
  deriving DecidableEq, Repr

/-- `InnerContext` of `lib.rs` (lines 33–44): the GPU resources held while
the stage is `Ready`.  Note that `swap_chain` is NOT optional in the
source, while `surface` is. -/
structure InnerContext where
  surface : Option ResId
  adapter : ResId
  device : ResId
  queue : ResId
  vs_module : ResId
  fs_module : ResId
  pipeline_layout : ResId
  render_pipeline : ResId
  sc_desc : SwapChainDescriptor
  swap_chain : ResId
  deriving DecidableEq, Repr

/-- `WgpuStage` of `lib.rs` (lines 19–22). -/
inductive WgpuStage
  | Init
  | Ready (inner : InnerContext)
  deriving DecidableEq, Repr

/-- `WgpuStage::not_ready` (lines 25–30). -/
def WgpuStage.not_ready : WgpuStage → Bool
  | .Ready _ => false
  | _ => true

/-- `WgpuContext` (lines 14–17).  The field `instance` of the source is
called `inst` here because `instance` is a Lean keyword. -/
structure WgpuContext where
  inst : ResId
  stage : WgpuStage
  deriving DecidableEq, Repr

/-- `setup` (lines 46–180).  `handleAvailable` models
`ndk_glue::native_window().as_ref().is_some()` (the Android gate; on
non-Android targets it is constantly `true`).  `winW`/`winH` model
`window.inner_size()`.  `fresh` is the next unused resource identity;
every resource the capability provider creates receives the next id. -/
def setup (handleAvailable : Bool) (winW winH : Nat)
    (swapchain_format : TextureFormat)
    (ctx : WgpuContext) (fresh : Nat) : WgpuContext × Nat :=
  match ctx.stage with
  | .Init =>
      -- init = stage.not_ready() && native_window().is_some(); in this
      -- arm not_ready() is true, so init = handleAvailable.
      if handleAvailable then
        let sc_desc : SwapChainDescriptor :=
          { usage := .OUTPUT_ATTACHMENT
            format := swapchain_format
            width := winW
            height := winH
            present_mode := .Mailbox }
        ({ ctx with
            stage := .Ready
              { surface := some fresh
                adapter := fresh + 1
                device := fresh + 2
                queue := fresh + 3
                vs_module := fresh + 4
                fs_module := fresh + 5
                pipeline_layout := fresh + 6
                render_pipeline := fresh + 7
                sc_desc := sc_desc
                swap_chain := fresh + 8 } },
          fresh + 9)
      else (ctx, fresh)
  | .Ready inner =>
      -- init = inner.surface.is_none() && native_window().is_some()
      if inner.surface.isNone && handleAvailable then
        ({ ctx with stage := .Ready { inner with surface := some fresh } },
          fresh + 1)
      else (ctx, fresh)

/-- `clean_surface` (lines 182–191): `inner.surface.take()`. -/
def clean_surface (ctx : WgpuContext) : WgpuContext :=
  match ctx.stage with
  | .Ready inner => { ctx with stage := .Ready { inner with surface := none } }
  | .Init => ctx

/-- One command recorded inside a render pass. -/
inductive RPassCmd
  | set_pipeline (p : ResId)
  | draw_range (vstart vstop istart istop : Nat)
  | set_vertex_buffer (slot : Nat) (b : ResId)
  | set_index_buffer (b : ResId)
  deriving DecidableEq, Repr

/-- The fixed-function part of `begin_render_pass`: the single colour
attachment's operations and the absence of resolve/depth targets. -/
structure RenderPassDesc where
  clear : Color
  store : Bool
  has_resolve_target : Bool
  has_depth_stencil : Bool
  deriving DecidableEq, Repr

/-- A recorded render pass. -/
structure RenderPass where
  desc : RenderPassDesc
  cmds : List RPassCmd
  deriving DecidableEq, Repr

/-- A finished command buffer: the render passes recorded by one encoder. -/
abbrev CommandBuffer := List RenderPass

/-- Observable events of `draw`: log lines and graphics-API calls. -/
inductive TraceEvent
  | log (msg : String)
  | get_current_frame (chain : ResId)
  | submit (queue : ResId) (buf : CommandBuffer)
  deriving DecidableEq, Repr

/-- Whether a trace event is a graphics-API call (anything but a log). -/
def TraceEvent.isGpuCall : TraceEvent → Bool
  | .log _ => false
  | _ => true

/-- Whether a trace event submits a command buffer to a queue. -/
def TraceEvent.isSubmit : TraceEvent → Bool
  | .submit _ _ => true
  | _ => false

/-- Whether a render-pass command binds a vertex or index buffer. -/
def RPassCmd.bindsBuffer : RPassCmd → Bool
  | .set_vertex_buffer _ _ => true
  | .set_index_buffer _ => true
  | _ => false

/-- `draw` (lines 193–231).  `acquireOk` models whether
`swap_chain.get_current_frame()` succeeds; on failure the source panics
via `.expect`, modelled as `none`.  On success the result is the
(unchanged) context together with the trace of events. -/
def draw (acquireOk : Bool) (ctx : WgpuContext) :
    Option (WgpuContext × List TraceEvent) :=
  match ctx.stage with
  | .Ready ready =>
      if acquireOk then
        some (ctx,
          [ .log "draw",
            .get_current_frame ready.swap_chain,
            .submit ready.queue
              [ { desc :=
                    { clear := .GREEN
                      store := true
                      has_resolve_target := false
                      has_depth_stencil := false }
                  cmds :=
                    [ .set_pipeline ready.render_pipeline,
                      .draw_range 0 3 0 1 ] } ] ])
      else none
  | .Init => some (ctx, [.log "draw", .log "got draw Init"])

/-- The `WindowEvent::Resized` handler of `run` (lines 279–314): if
`Ready` and `surface` is `Some`, update `sc_desc` dimensions and recreate
the swap chain against the existing surface; otherwise do nothing. -/
def resize (newW newH : Nat) (ctx : WgpuContext) (fresh : Nat) :
    WgpuContext × Nat :=
  match ctx.stage with
  | .Ready ready =>
      match ready.surface with
      | some _ =>
          ({ ctx with
              stage := .Ready
                { ready with
                    sc_desc :=
                      { ready.sc_desc with width := newW, height := newH }
                    swap_chain := fresh } },
            fresh + 1)
      | none => (ctx, fresh)
  | .Init => (ctx, fresh)

/-- The lifecycle and render operations the event loop can dispatch. -/
inductive Op
  | setup (handleAvailable : Bool) (winW winH : Nat) (fmt : TextureFormat)
  | teardown
  | resize (w h : Nat)
  | draw (acquireOk : Bool)
  deriving DecidableEq, Repr

/-- A world: the shared context plus the fresh-identity counter. -/
structure World where
  ctx : WgpuContext
  fresh : Nat
  deriving DecidableEq, Repr

/-- One dispatched operation.  `draw` never mutates the context (it only
reads it and talks to the GPU), so its step is the identity on worlds. -/
def step : Op → World → World
  | .setup h w ht fmt, wd =>
      let r := setup h w ht fmt wd.ctx wd.fresh
      { ctx := r.1, fresh := r.2 }
  | .teardown, wd => { wd with ctx := clean_surface wd.ctx }
  | .resize w h, wd =>
      let r := resize w h wd.ctx wd.fresh
      { ctx := r.1, fresh := r.2 }
  | .draw _, wd => wd

/-- Dispatch a list of operations in order. -/
def runOps : List Op → World → World
  | [], w => w
  | op :: ops, w => runOps ops (step op w)

/-- The initial world of `run` (lines 233–239): a fresh `Instance`
(identity 0) and stage `Init`. -/
def initialWorld : World :=
  { ctx := { inst := 0, stage := .Init }, fresh := 1 }

/-- A world is reachable when some operation sequence produces it from
the initial world. -/
def Reachable (w : World) : Prop :=
  ∃ ops : List Op, runOps ops initialWorld = w

/-- The persistent resources of the inner context agree: everything
except `surface`, `sc_desc` and `swap_chain`. -/
def persistentEq (a b : InnerContext) : Prop :=
  a.adapter = b.adapter ∧ a.device = b.device ∧ a.queue = b.queue ∧
  a.vs_module = b.vs_module ∧ a.fs_module = b.fs_module ∧
  a.pipeline_layout = b.pipeline_layout ∧ a.render_pipeline = b.render_pipeline

/-- Whether a presentation chain exists in a stage.  `InnerContext`
stores `swap_chain` as a non-optional field, so a chain exists in every
`Ready` state and in no `Init` state. -/
def hasSwapChain : WgpuStage → Bool
  | .Ready _ => true
  | .Init => false

/-- The swap-chain descriptor of a context, when one exists. -/
def scDescOf (ctx : WgpuContext) : Option SwapChainDescriptor :=
  match ctx.stage with
  | .Ready inner => some inner.sc_desc
  | .Init => none

/-- The render pass `draw` records: clear to green, bind the pipeline,
draw vertices `0..3`, instances `0..1`, no buffers bound. -/
def greenPass (p : ResId) : RenderPass :=
  { desc :=
      { clear := .GREEN
        store := true
        has_resolve_target := false
        has_depth_stencil := false }
    cmds := [.set_pipeline p, .draw_range 0 3 0 1] }

/-- The trace `draw` emits from a `Ready` state on successful frame
acquisition. -/
def drawTrace (inner : InnerContext) : List TraceEvent :=
  [ .log "draw",
    .get_current_frame inner.swap_chain,
    .submit inner.queue [greenPass inner.render_pipeline] ]

/-- The inner context produced by the first successful `setup` from the
initial world (window 640×480, format `Rgba8Unorm`). -/
def readyInner : InnerContext :=
  { surface := some 1
    adapter := 2
    device := 3
    queue := 4
    vs_module := 5
    fs_module := 6
    pipeline_layout := 7
    render_pipeline := 8
    sc_desc :=
      { usage := .OUTPUT_ATTACHMENT
        format := .Rgba8Unorm
        width := 640
        height := 480
        present_mode := .Mailbox }
    swap_chain := 9 }

/-- The world after one successful `setup` from the initial world. -/
def readyWorld : World :=
  runOps [Op.setup true 640 480 TextureFormat.Rgba8Unorm] initialWorld

/-- `readyInner` with the surface discarded by `clean_surface`. -/
def tornInner : InnerContext := { readyInner with surface := none }

/-- The world after `setup` then `teardown` from the initial world. -/
def tornWorld : World :=
  runOps [Op.setup true 640 480 TextureFormat.Rgba8Unorm, Op.teardown]
    initialWorld

/-- C10: `clean_surface` is idempotent: applying it twice yields exactly
the state of applying it once (the second call finds `surface` already
`None`, or the stage `Init`, and changes nothing). -/
theorem clean_surface_idempotent (ctx : WgpuContext) :
    clean_surface (clean_surface ctx) = clean_surface ctx := by
  cases h : ctx.stage <;> simp [clean_surface, h]

/-- C1: no operation regresses the stage from `Ready` back to `Init`:
if the stage is `Ready` before any dispatched operation, it is still
`Ready` (`not_ready` is `false`) afterwards. -/
theorem stage_never_regresses (op : Op) (w : World) (inner : InnerContext)
    (h : w.ctx.stage = WgpuStage.Ready inner) :
    (step op w).ctx.stage.not_ready = false := by
  cases op with
  | setup ha ww wh fmt =>
      simp only [step, setup, h]
      split <;> simp [WgpuStage.not_ready, h]
  | teardown =>
      simp [step, clean_surface, h, WgpuStage.not_ready]
  | resize a b =>
      simp only [step, resize, h]
      cases inner.surface <;> simp [WgpuStage.not_ready, h]
  | draw ok =>
      simp [step, h, WgpuStage.not_ready]

/-- Witness for C1 at a concrete reachable `Ready` world and `teardown`. -/
theorem stage_never_regresses_witness :
    (step Op.teardown readyWorld).ctx.stage.not_ready = false :=
  stage_never_regresses Op.teardown readyWorld readyInner (by decide)

/-- C2: once the stage is `Ready`, every dispatched operation (in
particular `setup`, `teardown` and `resize`) preserves the adapter,
device, queue, shader modules, pipeline layout and render pipeline
identities; only `surface`, `sc_desc` and `swap_chain` may change. -/
theorem persistent_resources_stable (op : Op) (w : World)
    (inner : InnerContext) (h : w.ctx.stage = WgpuStage.Ready inner) :
    ∃ inner', (step op w).ctx.stage = WgpuStage.Ready inner' ∧
      persistentEq inner inner' := by
  cases op with
  | setup ha ww wh fmt =>
      simp only [step, setup, h]
      split
      · exact ⟨{ inner with surface := some w.fresh },
          by simp, by simp [persistentEq]⟩
      · exact ⟨inner, by simp [h], by simp [persistentEq]⟩
  | teardown =>
      exact ⟨{ inner with surface := none },
        by simp [step, clean_surface, h], by simp [persistentEq]⟩
  | resize a b =>
      simp only [step, resize, h]
      cases hs : inner.surface with
      | none => exact ⟨inner, by simp [h], by simp [persistentEq]⟩
      | some sid =>
          exact ⟨{ inner with
              sc_desc := { inner.sc_desc with width := a, height := b }
              swap_chain := w.fresh },
            by simp [hs], by simp [persistentEq]⟩
  | draw ok =>
      exact ⟨inner, by simp [step, h], by simp [persistentEq]⟩

/-- Witness for C2: `teardown` on a concrete `Ready` world keeps the
persistent resources. -/
theorem persistent_resources_stable_witness :
    ∃ inner', (step Op.teardown readyWorld).ctx.stage =
      WgpuStage.Ready inner' ∧ persistentEq readyInner inner' :=
  persistent_resources_stable Op.teardown readyWorld readyInner (by decide)

/-- C5: any sequence of `setup` calls made while no window handle is
available, starting from an `Init` stage, leaves the world exactly
unchanged: the stage stays `Init` and the fresh counter does not move,
so no GPU resource is created. -/
theorem setup_no_handle_noop (params : List (Nat × Nat × TextureFormat))
    (w : World) (h : w.ctx.stage = WgpuStage.Init) :
    runOps (params.map fun p => Op.setup false p.1 p.2.1 p.2.2) w = w := by
  induction params with
  | nil => rfl
  | cons p ps ih =>
      have hstep : step (Op.setup false p.1 p.2.1 p.2.2) w = w := by
        simp [step, setup, h]
      simp only [List.map_cons, runOps, hstep]
      exact ih

/-- Witness for C5: two handle-less `setup` calls from the initial world. -/
theorem setup_no_handle_noop_witness :
    runOps ([((10 : Nat), (20 : Nat), TextureFormat.Rgba8Unorm),
        ((30 : Nat), (40 : Nat), TextureFormat.Bgra8Unorm)].map
      fun p => Op.setup false p.1 p.2.1 p.2.2) initialWorld = initialWorld :=
  setup_no_handle_noop _ initialWorld (by decide)

/-- C6: `draw` from an `Init` stage never panics (it returns a value),
leaves the context unchanged, emits exactly the two log lines of the
source and makes no graphics-API call. -/
theorem draw_uninitialized_noop (acquireOk : Bool) (ctx : WgpuContext)
    (h : ctx.stage = WgpuStage.Init) :
    draw acquireOk ctx =
      some (ctx, [TraceEvent.log "draw", TraceEvent.log "got draw Init"]) ∧
    ∀ e ∈ [TraceEvent.log "draw", TraceEvent.log "got draw Init"],
      e.isGpuCall = false := by
  exact ⟨by simp [draw, h], by decide⟩

/-- Witness for C6 at the initial context. -/
theorem draw_uninitialized_noop_witness :
    draw true initialWorld.ctx =
      some (initialWorld.ctx,
        [TraceEvent.log "draw", TraceEvent.log "got draw Init"]) ∧
    ∀ e ∈ [TraceEvent.log "draw", TraceEvent.log "got draw Init"],
      e.isGpuCall = false :=
  draw_uninitialized_noop true initialWorld.ctx (by decide)

/-- C7: from a `Ready` state with successful frame acquisition, `draw`
submits exactly one command buffer to the queue, holding a single render
pass that clears to the fixed green colour, binds the parameterless
render pipeline, and issues one draw call over vertices `0..3` and
instances `0..1` with no vertex or index buffer bound. -/
theorem draw_ready_submits_green_triangle (ctx : WgpuContext)
    (inner : InnerContext) (h : ctx.stage = WgpuStage.Ready inner) :
    draw true ctx = some (ctx, drawTrace inner) ∧
    (drawTrace inner).filter TraceEvent.isSubmit =
      [TraceEvent.submit inner.queue [greenPass inner.render_pipeline]] ∧
    (greenPass inner.render_pipeline).desc.clear = Color.GREEN ∧
    (greenPass inner.render_pipeline).cmds =
      [RPassCmd.set_pipeline inner.render_pipeline,
        RPassCmd.draw_range 0 3 0 1] ∧
    ∀ c ∈ (greenPass inner.render_pipeline).cmds, c.bindsBuffer = false := by
  refine ⟨by simp [draw, h, drawTrace, greenPass], rfl, rfl, rfl, ?_⟩
  simp [greenPass, RPassCmd.bindsBuffer]

/-- Witness for C7 at the concrete world after one successful `setup`. -/
theorem draw_ready_submits_green_triangle_witness :
    draw true readyWorld.ctx = some (readyWorld.ctx, drawTrace readyInner) ∧
    (drawTrace readyInner).filter TraceEvent.isSubmit =
      [TraceEvent.submit readyInner.queue
        [greenPass readyInner.render_pipeline]] ∧
    (greenPass readyInner.render_pipeline).desc.clear = Color.GREEN ∧
    (greenPass readyInner.render_pipeline).cmds =
      [RPassCmd.set_pipeline readyInner.render_pipeline,
        RPassCmd.draw_range 0 3 0 1] ∧
    ∀ c ∈ (greenPass readyInner.render_pipeline).cmds,
      c.bindsBuffer = false :=
  draw_ready_submits_green_triangle readyWorld.ctx readyInner (by decide)

/-- Auxiliary: the exact effect of `resize` when the stage is `Ready`
and a surface is present. -/
theorem resize_some_eq (nw nh : Nat) (ctx : WgpuContext)
    (inner : InnerContext) (sid : ResId) (fresh : Nat)
    (h : ctx.stage = WgpuStage.Ready inner)
    (hs : inner.surface = some sid) :
    resize nw nh ctx fresh =
      ({ ctx with
          stage := WgpuStage.Ready
            { inner with
                sc_desc := { inner.sc_desc with width := nw, height := nh }
                swap_chain := fresh } },
        fresh + 1) := by
  simp [resize, h, hs]

/-- C8: with a surface present, `resize (W, H)` sets the descriptor
dimensions to exactly `(W, H)` and recreates the swap chain against the
existing surface on every call (the new chain takes the next fresh
identity, never short-circuited), so resizing twice with the same
dimensions is idempotent on the descriptor; with no surface or an
`Init` stage, `resize` changes nothing. -/
theorem resize_spec :
    (∀ (nw nh : Nat) (ctx : WgpuContext) (inner : InnerContext)
        (sid : ResId) (fresh : Nat),
        ctx.stage = WgpuStage.Ready inner → inner.surface = some sid →
        resize nw nh ctx fresh =
          ({ ctx with
              stage := WgpuStage.Ready
                { inner with
                    sc_desc :=
                      { inner.sc_desc with width := nw, height := nh }
                    swap_chain := fresh } },
            fresh + 1)) ∧
    (∀ (nw nh : Nat) (ctx : WgpuContext) (inner : InnerContext)
        (sid : ResId) (fresh fresh2 : Nat),
        ctx.stage = WgpuStage.Ready inner → inner.surface = some sid →
        scDescOf (resize nw nh (resize nw nh ctx fresh).1 fresh2).1 =
          scDescOf (resize nw nh ctx fresh).1) ∧
    (∀ (nw nh : Nat) (ctx : WgpuContext) (fresh : Nat),
        ctx.stage = WgpuStage.Init →
        resize nw nh ctx fresh = (ctx, fresh)) ∧
    (∀ (nw nh : Nat) (ctx : WgpuContext) (inner : InnerContext)
        (fresh : Nat),
        ctx.stage = WgpuStage.Ready inner → inner.surface = none →
        resize nw nh ctx fresh = (ctx, fresh)) := by
  refine ⟨resize_some_eq, ?_, ?_, ?_⟩
  · intro nw nh ctx inner sid fresh fresh2 h hs
    rw [resize_some_eq nw nh ctx inner sid fresh h hs]
    rw [resize_some_eq nw nh _
      { inner with
          sc_desc := { inner.sc_desc with width := nw, height := nh }
          swap_chain := fresh } sid fresh2 rfl (by simp [hs])]
    simp [scDescOf]
  · intro nw nh ctx fresh h
    simp [resize, h]
  · intro nw nh ctx inner fresh h hs
    simp [resize, h, hs]

/-- Witness for C8: all four parts instantiated at concrete worlds. -/
theorem resize_spec_witness :
    resize 800 600 readyWorld.ctx 10 =
      ({ readyWorld.ctx with
          stage := WgpuStage.Ready
            { readyInner with
                sc_desc :=
                  { readyInner.sc_desc with width := 800, height := 600 }
                swap_chain := 10 } },
        11) ∧
    scDescOf (resize 800 600 (resize 800 600 readyWorld.ctx 10).1 11).1 =
      scDescOf (resize 800 600 readyWorld.ctx 10).1 ∧
    resize 800 600 initialWorld.ctx 5 = (initialWorld.ctx, 5) ∧
    resize 800 600 tornWorld.ctx 10 = (tornWorld.ctx, 10) :=
  ⟨resize_spec.1 800 600 readyWorld.ctx readyInner 1 10 (by decide)
      (by decide),
    resize_spec.2.1 800 600 readyWorld.ctx readyInner 1 10 11 (by decide)
      (by decide),
    resize_spec.2.2.1 800 600 initialWorld.ctx 5 (by decide),
    resize_spec.2.2.2 800 600 tornWorld.ctx tornInner 10 (by decide)
      (by decide)⟩

/-- C9: from `Ready` with no surface and a window handle available,
`setup` stores a freshly created surface and changes nothing else — in
particular the swap chain, its descriptor, the device and the pipeline
stay exactly as they were (the chain is NOT recreated); from `Ready`
with a surface already present, `setup` changes nothing at all. -/
theorem setup_ready_heals_surface :
    (∀ (ww wh : Nat) (fmt : TextureFormat) (ctx : WgpuContext)
        (inner : InnerContext) (fresh : Nat),
        ctx.stage = WgpuStage.Ready inner → inner.surface = none →
        setup true ww wh fmt ctx fresh =
          ({ ctx with
              stage := WgpuStage.Ready { inner with surface := some fresh } },
            fresh + 1)) ∧
    (∀ (ha : Bool) (ww wh : Nat) (fmt : TextureFormat) (ctx : WgpuContext)
        (inner : InnerContext) (sid : ResId) (fresh : Nat),
        ctx.stage = WgpuStage.Ready inner → inner.surface = some sid →
        setup ha ww wh fmt ctx fresh = (ctx, fresh)) := by
  constructor
  · intro ww wh fmt ctx inner fresh h hs
    simp [setup, h, hs]
  · intro ha ww wh fmt ctx inner sid fresh h hs
    simp [setup, h, hs]

/-- Witness for C9: healing the torn world, and a no-op on the ready
world. -/
theorem setup_ready_heals_surface_witness :
    setup true 320 240 TextureFormat.Rgba8Unorm tornWorld.ctx 10 =
      ({ tornWorld.ctx with
          stage := WgpuStage.Ready { tornInner with surface := some 10 } },
        11) ∧
    setup true 320 240 TextureFormat.Rgba8Unorm readyWorld.ctx 10 =
      (readyWorld.ctx, 10) :=
  ⟨setup_ready_heals_surface.1 320 240 TextureFormat.Rgba8Unorm
      tornWorld.ctx tornInner 10 (by decide) (by decide),
    setup_ready_heals_surface.2 true 320 240 TextureFormat.Rgba8Unorm
      readyWorld.ctx readyInner 1 10 (by decide) (by decide)⟩

/-- C3 as stated is false on the code: in the reachable world obtained
by `setup` then `teardown`, the stage is `Ready` with `surface = none`,
yet the swap chain still exists (`InnerContext.swap_chain` is not
optional and `clean_surface` does not touch it), so "the chain exists
iff the surface is `Some`" fails. -/
theorem chain_without_surface_counterexample :
    ¬ (∀ w : World, Reachable w → ∀ inner : InnerContext,
        w.ctx.stage = WgpuStage.Ready inner →
        (hasSwapChain w.ctx.stage = true ↔ inner.surface.isSome = true)) := by
  intro hcl
  have hr : Reachable tornWorld :=
    ⟨[Op.setup true 640 480 TextureFormat.Rgba8Unorm, Op.teardown], rfl⟩
  have hiff := hcl tornWorld hr tornInner (by decide)
  have hsome : tornInner.surface.isSome = true := hiff.mp (by decide)
  exact absurd hsome (by decide)

/-- C3 amended: in every reachable `Ready` state the swap chain exists
unconditionally (the field is non-optional), and `teardown` discards
only the surface — the resulting stage is `Ready` with the same inner
context except `surface = none`, the swap chain included. -/
theorem chain_survives_teardown (w : World) (inner : InnerContext)
    (_hr : Reachable w) (h : w.ctx.stage = WgpuStage.Ready inner) :
    hasSwapChain w.ctx.stage = true ∧
    (clean_surface w.ctx).stage =
      WgpuStage.Ready { inner with surface := none } :=
  ⟨by simp [hasSwapChain, h], by simp [clean_surface, h]⟩

/-- Witness for the amended C3 at the world after one `setup`. -/
theorem chain_survives_teardown_witness :
    hasSwapChain readyWorld.ctx.stage = true ∧
    (clean_surface readyWorld.ctx).stage =
      WgpuStage.Ready { readyInner with surface := none } :=
  chain_survives_teardown readyWorld readyInner
    ⟨[Op.setup true 640 480 TextureFormat.Rgba8Unorm], rfl⟩ (by decide)

/-- C4 as stated is false on the code: in the reachable world obtained
by `setup` then `teardown` (stage `Ready`, `surface = none`), `draw`
still attempts frame acquisition from the retained swap chain — when
acquisition fails the `.expect` is a fatal panic (`none`), so `draw` is
not a presentation no-op that never fatally fails. -/
theorem draw_after_teardown_counterexample :
    ¬ (∀ w : World, Reachable w → ∀ inner : InnerContext,
        w.ctx.stage = WgpuStage.Ready inner → inner.surface = none →
        ∀ acquireOk : Bool, ∃ r : WgpuContext × List TraceEvent,
          draw acquireOk w.ctx = some r ∧
          ∀ e ∈ r.2, e.isSubmit = false) := by
  intro hcl
  have hr : Reachable tornWorld :=
    ⟨[Op.setup true 640 480 TextureFormat.Rgba8Unorm, Op.teardown], rfl⟩
  obtain ⟨r, hdraw, hnos⟩ :=
    hcl tornWorld hr tornInner (by decide) (by decide) false
  have hnone : draw false tornWorld.ctx = none := rfl
  rw [hnone] at hdraw
  exact Option.noConfusion hdraw

/-- C4 amended: when the stage is `Ready`, `draw` ignores the `surface`
field entirely: even with `surface = none` it acquires a frame from the
retained swap chain and submits exactly one command buffer on success,
and fails fatally when acquisition fails. -/
theorem draw_ignores_surface (ctx : WgpuContext) (inner : InnerContext)
    (h : ctx.stage = WgpuStage.Ready inner) (_hs : inner.surface = none) :
    draw true ctx = some (ctx, drawTrace inner) ∧
    ((drawTrace inner).filter TraceEvent.isSubmit).length = 1 ∧
    draw false ctx = none := by
  exact ⟨by simp [draw, h, drawTrace, greenPass], rfl, by simp [draw, h]⟩

/-- Witness for the amended C4 at the world after `setup` then
`teardown`. -/
theorem draw_ignores_surface_witness :
    draw true tornWorld.ctx = some (tornWorld.ctx, drawTrace tornInner) ∧
    ((drawTrace tornInner).filter TraceEvent.isSubmit).length = 1 ∧
    draw false tornWorld.ctx = none :=
  draw_ignores_surface tornWorld.ctx tornInner (by decide) (by decide)

end Droidwgpu
